import Mathlib

/-!
Verification of the windowed-list renderer and cart logic of the
react-performance-ecommerce demo.

The cart operations (`addToCart` in `src/pages/Home.jsx`, the total in
`src/components/Cart.jsx`) are embedded directly from the source.  The
windowed list renderer itself is the `FixedSizeList` component of the
`react-window` dependency: only its instantiation (`src/pages/Home.jsx`,
`itemCount = products.length`, `itemSize = 120`, `height = 500`) is in the
repository, so the range computation is modelled from the specification.
All pixel quantities and indices are natural numbers, matching the spec's
data model (scroll offset a non-negative integer, row height and viewport
height positive integers).
-/

/-- Modelled from the spec: the first visible row index on a scroll event,
`floor(scrollOffset / rowHeight)` clamped to `[0, itemCount-1]`.  The
implementation (react-window's `FixedSizeList`) is not part of the
repository source; only its instantiation in `Home.jsx` is. -/
def firstIndex (itemCount rowHeight scrollOffset : ℕ) : ℕ :=
  min (scrollOffset / rowHeight) (itemCount - 1)

/-- Modelled from the spec: the last visible row index on a scroll event,
`floor(scrollOffset / rowHeight) + ceil(viewportHeight / rowHeight)` clamped
to `[0, itemCount-1]`.  `(viewportHeight + rowHeight - 1) / rowHeight` is
the ceiling of `viewportHeight / rowHeight` for positive `rowHeight`. -/
def lastIndex (itemCount rowHeight viewportHeight scrollOffset : ℕ) : ℕ :=
  min (scrollOffset / rowHeight + (viewportHeight + rowHeight - 1) / rowHeight)
    (itemCount - 1)

/-- Modelled from the spec: the visible range derived from viewport state and
item count; `none` when `itemCount = 0` (an empty catalog renders nothing). -/
def visibleRange (itemCount rowHeight viewportHeight scrollOffset : ℕ) :
    Option (ℕ × ℕ) :=
  if itemCount = 0 then none
  else some (firstIndex itemCount rowHeight scrollOffset,
             lastIndex itemCount rowHeight viewportHeight scrollOffset)

/-- Modelled from the spec: the rendered block is translated by
`firstIndex × rowHeight`. -/
def blockOffset (itemCount rowHeight scrollOffset : ℕ) : ℕ :=
  firstIndex itemCount rowHeight scrollOffset * rowHeight

/-- Modelled from the spec: the rows actually handed to the row-rendering
callback, as pairs of (row index, absolute pixel position).  Row `k` of the
rendered block sits `k × rowHeight` below the block, and the block itself is
translated by `firstIndex × rowHeight`.  `itemCount = 0` renders nothing. -/
def renderedRows (itemCount rowHeight viewportHeight scrollOffset : ℕ) :
    List (ℕ × ℕ) :=
  if itemCount = 0 then []
  else
    let f := firstIndex itemCount rowHeight scrollOffset
    let l := lastIndex itemCount rowHeight viewportHeight scrollOffset
    (List.range (l + 1 - f)).map fun k =>
      (f + k, blockOffset itemCount rowHeight scrollOffset + k * rowHeight)

/-- Modelled from the spec: the synthesized scrollable height, obtained by
stacking `itemCount` rows of fixed height `rowHeight`. -/
def totalScrollHeight (itemCount rowHeight : ℕ) : ℕ :=
  (List.range itemCount).foldl (fun acc _ => acc + rowHeight) 0

/-- Spec-side formula: `floor(a / b)` computed over the rationals, as the
spec's words state it. -/
def floorDivSpec (a b : ℕ) : ℕ := ⌊(a : ℚ) / (b : ℚ)⌋₊

/-- Spec-side formula: `ceil(a / b)` computed over the rationals, as the
spec's words state it. -/
def ceilDivSpec (a b : ℕ) : ℕ := ⌈(a : ℚ) / (b : ℚ)⌉₊

/-- Spec-side formula: clamp `x` to the interval `[lo, hi]`. -/
def clampSpec (x lo hi : ℕ) : ℕ := max lo (min x hi)

/-- Spec-side formula for the first visible index:
`clamp(floor(scrollOffset / rowHeight), 0, itemCount - 1)`. -/
def firstIndexSpec (itemCount rowHeight scrollOffset : ℕ) : ℕ :=
  clampSpec (floorDivSpec scrollOffset rowHeight) 0 (itemCount - 1)

/-- Spec-side formula for the last visible index:
`clamp(floor(scrollOffset / rowHeight) + ceil(viewportHeight / rowHeight),
0, itemCount - 1)`. -/
def lastIndexSpec (itemCount rowHeight viewportHeight scrollOffset : ℕ) : ℕ :=
  clampSpec (floorDivSpec scrollOffset rowHeight +
    ceilDivSpec viewportHeight rowHeight) 0 (itemCount - 1)

/-- Configuration errors rejected at construction, modelled from the spec's
error-handling design. -/
inductive ConfigError where
  | nonPositiveRowHeight
  | negativeItemCount
deriving DecidableEq

/-- A validated windowed-list configuration. -/
structure ListConfig where
  itemCount : ℕ
  rowHeight : ℕ
  viewportHeight : ℕ
deriving DecidableEq

/-- Modelled from the spec: construction of the windowed list renderer.
Invalid configuration (row height ≤ 0, itemCount negative) is rejected with
a configuration error before any rendering state exists. -/
def mkWindowedList (itemCount rowHeight viewportHeight : ℤ) :
    Except ConfigError ListConfig :=
  if rowHeight ≤ 0 then Except.error ConfigError.nonPositiveRowHeight
  else if itemCount < 0 then Except.error ConfigError.negativeItemCount
  else Except.ok ⟨itemCount.toNat, rowHeight.toNat, viewportHeight.toNat⟩

/-- A catalog entry: identifier, display name, non-negative price
(`src/data/products.js` generates integer prices). -/
structure Product where
  id : ℕ
  name : String
  price : ℕ
deriving DecidableEq

/-- `addToCart` from `src/pages/Home.jsx`:
`setCart((prev) => [...prev, product])`. -/
def addToCart (prev : List Product) (product : Product) : List Product :=
  prev ++ [product]

/-- The cart total from `src/components/Cart.jsx`:
`cart.reduce((sum, item) => sum + item.price, 0)`. -/
def Cart.total (cart : List Product) : ℕ :=
  cart.foldl (fun sum item => sum + item.price) 0

lemma foldl_const_add (rh : ℕ) :
    ∀ (l : List ℕ) (acc : ℕ),
      l.foldl (fun a _ => a + rh) acc = acc + l.length * rh := by
  intro l
  induction l with
  | nil => intro acc; simp
  | cons x t ih =>
      intro acc
      simp only [List.foldl_cons, List.length_cons, ih]
      ring

lemma cart_total_foldl (cart : List Product) :
    ∀ acc : ℕ,
      cart.foldl (fun sum item => sum + item.price) acc =
        acc + (cart.map Product.price).sum := by
  induction cart with
  | nil => intro acc; simp
  | cons p t ih =>
      intro acc
      simp only [List.foldl_cons, List.map_cons, List.sum_cons, ih]
      ring

lemma floorDivSpec_eq (a b : ℕ) : floorDivSpec a b = a / b := by
  unfold floorDivSpec
  rw [Nat.floor_div_nat, Nat.floor_natCast]

lemma le_mul_ceil_pred_div {vh rh : ℕ} (hrh : 0 < rh) :
    vh ≤ (vh + rh - 1) / rh * rh := by
  have hdm := Nat.div_add_mod (vh + rh - 1) rh
  have hmod : (vh + rh - 1) % rh < rh := Nat.mod_lt _ hrh
  rw [Nat.mul_comm]
  generalize hq : rh * ((vh + rh - 1) / rh) = Q at hdm ⊢
  generalize hr : (vh + rh - 1) % rh = R at hdm hmod
  omega

lemma ceilDivSpec_eq {vh rh : ℕ} (hrh : 0 < rh) :
    ceilDivSpec vh rh = (vh + rh - 1) / rh := by
  have hb : (0 : ℚ) < (rh : ℚ) := by exact_mod_cast hrh
  unfold ceilDivSpec
  apply le_antisymm
  · rw [Nat.ceil_le, div_le_iff₀ hb]
    exact_mod_cast le_mul_ceil_pred_div hrh
  · rw [Nat.div_le_iff_le_mul_add_pred hrh]
    have h := Nat.le_ceil ((vh : ℚ) / (rh : ℚ))
    rw [div_le_iff₀ hb] at h
    have h2 : (vh : ℚ) ≤ (rh : ℚ) * (⌈(vh : ℚ) / (rh : ℚ)⌉₊ : ℚ) := by
      rw [mul_comm] at h
      exact h
    have hvc : vh ≤ rh * ⌈(vh : ℚ) / (rh : ℚ)⌉₊ := by exact_mod_cast h2
    have heq : vh + rh - 1 = vh + (rh - 1) := by omega
    rw [heq]
    exact Nat.add_le_add_right hvc _

/-- C5: with `itemCount = 0` the visible range is empty and the
row-rendering callback is never invoked, for every row height, viewport
height and scroll offset. -/
theorem emptyCatalog_rendersNothing (rowHeight viewportHeight scrollOffset : ℕ) :
    visibleRange 0 rowHeight viewportHeight scrollOffset = none ∧
    renderedRows 0 rowHeight viewportHeight scrollOffset = [] :=
  ⟨rfl, rfl⟩

/-- C6: the synthesized scrollable height — `itemCount` stacked rows of fixed
height — equals exactly `itemCount × rowHeight`. -/
theorem totalScrollHeight_eq_mul (itemCount rowHeight : ℕ) :
    totalScrollHeight itemCount rowHeight = itemCount * rowHeight := by
  unfold totalScrollHeight
  rw [foldl_const_add rowHeight, List.length_range, Nat.zero_add]

/-- C9: `addToCart` appends the product at the end of the cart: the length
grows by one, the previously-present prefix of the cart is unchanged
position by position, and the last element is the added product. -/
theorem addToCart_appends (prev : List Product) (product : Product) :
    (addToCart prev product).length = prev.length + 1 ∧
    (addToCart prev product).take prev.length = prev ∧
    (addToCart prev product).getLast? = some product := by
  refine ⟨?_, ?_, ?_⟩
  · simp [addToCart]
  · exact List.take_left prev [product]
  · exact List.getLast?_concat prev

/-- C10: the cart total is the left fold of addition over the item prices
starting from 0, i.e. the sum of all prices; the empty cart totals 0, and
adding a product raises the total by exactly that product's price. -/
theorem cartTotal_is_price_sum (cart : List Product) (product : Product) :
    Cart.total [] = 0 ∧
    Cart.total cart = (cart.map Product.price).sum ∧
    Cart.total (addToCart cart product) = Cart.total cart + product.price := by
  refine ⟨rfl, ?_, ?_⟩
  · simpa using cart_total_foldl cart 0
  · unfold Cart.total addToCart
    rw [List.foldl_append]
    simp

/-- C1: on a scroll event the visible range is
`firstIndex = floor(scrollOffset / rowHeight)` and
`lastIndex = firstIndex + ceil(viewportHeight / rowHeight)`, both clamped to
`[0, itemCount-1]`, and the rendered block is translated by
`firstIndex × rowHeight` so every rendered row sits at its absolute
position `index × rowHeight`. -/
theorem visibleRange_matchesSpecFormula
    (itemCount rowHeight viewportHeight scrollOffset : ℕ)
    (hic : 0 < itemCount) (hrh : 0 < rowHeight) :
    firstIndex itemCount rowHeight scrollOffset =
      firstIndexSpec itemCount rowHeight scrollOffset ∧
    lastIndex itemCount rowHeight viewportHeight scrollOffset =
      lastIndexSpec itemCount rowHeight viewportHeight scrollOffset ∧
    blockOffset itemCount rowHeight scrollOffset =
      firstIndex itemCount rowHeight scrollOffset * rowHeight ∧
    ∀ r ∈ renderedRows itemCount rowHeight viewportHeight scrollOffset,
      r.2 = r.1 * rowHeight := by
  have hne : itemCount ≠ 0 := Nat.pos_iff_ne_zero.mp hic
  refine ⟨?_, ?_, rfl, ?_⟩
  · unfold firstIndex firstIndexSpec clampSpec
    rw [floorDivSpec_eq, Nat.zero_max]
  · unfold lastIndex lastIndexSpec clampSpec
    rw [floorDivSpec_eq, ceilDivSpec_eq hrh, Nat.zero_max]
  · intro r hr
    simp only [renderedRows, if_neg hne, List.mem_map, List.mem_range] at hr
    obtain ⟨k, hk, rfl⟩ := hr
    simp [blockOffset, Nat.add_mul]

/-- C1 witness: the spec formula agrees with the model at the Home.jsx
configuration (1000 items, 120px rows, 500px viewport) and offset 6000. -/
theorem visibleRange_matchesSpecFormula_witness :
    0 < 1000 ∧ 0 < 120 ∧
    firstIndex 1000 120 6000 = firstIndexSpec 1000 120 6000 :=
  ⟨by decide, by decide,
    (visibleRange_matchesSpecFormula 1000 120 500 6000
      (by decide) (by decide)).1⟩

/-- C2: for every item count and non-negative scroll offset the computed
range satisfies `firstIndex ≤ lastIndex`, both indices lie within
`[0, max(itemCount-1, 0)]`, and every index handed to the row-rendering
callback is a valid index into the product list. -/
theorem visibleRange_inBounds
    (itemCount rowHeight viewportHeight scrollOffset : ℕ) :
    firstIndex itemCount rowHeight scrollOffset ≤
      lastIndex itemCount rowHeight viewportHeight scrollOffset ∧
    firstIndex itemCount rowHeight scrollOffset ≤ max (itemCount - 1) 0 ∧
    lastIndex itemCount rowHeight viewportHeight scrollOffset ≤
      max (itemCount - 1) 0 ∧
    ∀ r ∈ renderedRows itemCount rowHeight viewportHeight scrollOffset,
      r.1 < itemCount := by
  refine ⟨min_le_min (Nat.le_add_right _ _) le_rfl,
    le_max_of_le_left (Nat.min_le_right _ _),
    le_max_of_le_left (Nat.min_le_right _ _), ?_⟩
  intro r hr
  by_cases hne : itemCount = 0
  · subst hne
    simp [renderedRows] at hr
  · simp only [renderedRows, if_neg hne, List.mem_map, List.mem_range] at hr
    obtain ⟨k, hk, rfl⟩ := hr
    show firstIndex itemCount rowHeight scrollOffset + k < itemCount
    have hl : lastIndex itemCount rowHeight viewportHeight scrollOffset ≤
        itemCount - 1 := Nat.min_le_right _ _
    omega

/-- C3: at the Home.jsx configuration (itemCount 1000, rowHeight 120,
viewportHeight 500) the visible range at offset 0 is approximately `[0, 4]`
(exactly `[0, 5]`, one overscan row past the cited last index), at offset
6000 approximately `[50, 54]` (exactly `[50, 55]`), and at offset 1000000 it
clamps to the final valid range ending at index 999. -/
theorem scenario_catalog1000 :
    (∃ p, visibleRange 1000 120 500 0 = some p ∧
      p.1 = 0 ∧ 4 ≤ p.2 ∧ p.2 ≤ 5) ∧
    (∃ p, visibleRange 1000 120 500 6000 = some p ∧
      p.1 = 50 ∧ 54 ≤ p.2 ∧ p.2 ≤ 55) ∧
    visibleRange 1000 120 500 1000000 = some (999, 999) :=
  ⟨⟨(0, 5), by decide⟩, ⟨(50, 55), by decide⟩, by decide⟩

/-- C4: every scroll offset past `itemCount × rowHeight − viewportHeight` is
clamped — the computation still returns a range, its last index is the final
valid index `itemCount - 1`, and the first index stays in bounds; no error
state exists. -/
theorem overscroll_clampsToEnd
    (itemCount rowHeight viewportHeight scrollOffset : ℕ)
    (hic : 0 < itemCount) (hrh : 0 < rowHeight)
    (hover : itemCount * rowHeight < scrollOffset + viewportHeight) :
    visibleRange itemCount rowHeight viewportHeight scrollOffset =
      some (firstIndex itemCount rowHeight scrollOffset, itemCount - 1) ∧
    lastIndex itemCount rowHeight viewportHeight scrollOffset =
      itemCount - 1 ∧
    firstIndex itemCount rowHeight scrollOffset ≤ itemCount - 1 := by
  have hne : itemCount ≠ 0 := Nat.pos_iff_ne_zero.mp hic
  have h1 : scrollOffset < (scrollOffset / rowHeight + 1) * rowHeight :=
    (Nat.div_lt_iff_lt_mul hrh).mp (Nat.lt_succ_self _)
  have h2 : viewportHeight ≤
      (viewportHeight + rowHeight - 1) / rowHeight * rowHeight :=
    le_mul_ceil_pred_div hrh
  have key : itemCount * rowHeight <
      (scrollOffset / rowHeight +
        (viewportHeight + rowHeight - 1) / rowHeight + 1) * rowHeight := by
    calc itemCount * rowHeight
        < scrollOffset + viewportHeight := hover
      _ < (scrollOffset / rowHeight + 1) * rowHeight +
            (viewportHeight + rowHeight - 1) / rowHeight * rowHeight :=
          add_lt_add_of_lt_of_le h1 h2
      _ = (scrollOffset / rowHeight +
            (viewportHeight + rowHeight - 1) / rowHeight + 1) * rowHeight := by
          ring
  have hic2 : itemCount < scrollOffset / rowHeight +
      (viewportHeight + rowHeight - 1) / rowHeight + 1 := by
    rw [Nat.mul_comm itemCount rowHeight, Nat.mul_comm _ rowHeight] at key
    exact Nat.lt_of_mul_lt_mul_left key
  have hlast : lastIndex itemCount rowHeight viewportHeight scrollOffset =
      itemCount - 1 := by
    unfold lastIndex
    exact Nat.min_eq_right
      (le_trans (Nat.sub_le itemCount 1) (Nat.lt_succ_iff.mp hic2))
  refine ⟨?_, hlast, Nat.min_le_right _ _⟩
  unfold visibleRange
  rw [if_neg hne, hlast]

/-- C4 witness: at the Home.jsx configuration, offset 1000000 lies past the
maximum and the range clamps to end at index 999. -/
theorem overscroll_clampsToEnd_witness :
    0 < 1000 ∧ 0 < 120 ∧ 1000 * 120 < 1000000 + 500 ∧
    lastIndex 1000 120 500 1000000 = 999 :=
  ⟨by decide, by decide, by decide,
    (overscroll_clampsToEnd 1000 120 500 1000000
      (by decide) (by decide) (by decide)).2.1⟩

/-- C7: the range computation is a pure, deterministic function of
`(itemCount, rowHeight, viewportHeight, scrollOffset)` — two calls on
identical inputs produce identical ranges and identical rendered rows. -/
theorem visibleRange_deterministic
    (ic₁ rh₁ vh₁ so₁ ic₂ rh₂ vh₂ so₂ : ℕ)
    (hic : ic₁ = ic₂) (hrh : rh₁ = rh₂) (hvh : vh₁ = vh₂) (hso : so₁ = so₂) :
    visibleRange ic₁ rh₁ vh₁ so₁ = visibleRange ic₂ rh₂ vh₂ so₂ ∧
    renderedRows ic₁ rh₁ vh₁ so₁ = renderedRows ic₂ rh₂ vh₂ so₂ := by
  subst hic hrh hvh hso
  exact ⟨rfl, rfl⟩

/-- C7 witness: repeating the computation at the Home.jsx configuration and
offset 6000 yields the same result. -/
theorem visibleRange_deterministic_witness :
    visibleRange 1000 120 500 6000 = visibleRange 1000 120 500 6000 :=
  (visibleRange_deterministic 1000 120 500 6000 1000 120 500 6000
    rfl rfl rfl rfl).1

/-- C8: construction with row height ≤ 0 or negative itemCount fails with a
configuration error; no configuration (and hence no partial rendering) is
produced. -/
theorem mkWindowedList_rejectsInvalid (itemCount rowHeight viewportHeight : ℤ)
    (h : rowHeight ≤ 0 ∨ itemCount < 0) :
    ∃ e, mkWindowedList itemCount rowHeight viewportHeight =
      Except.error e := by
  unfold mkWindowedList
  rcases h with h | h
  · exact ⟨ConfigError.nonPositiveRowHeight, by simp [h]⟩
  · by_cases hrh : rowHeight ≤ 0
    · exact ⟨ConfigError.nonPositiveRowHeight, by simp [hrh]⟩
    · exact ⟨ConfigError.negativeItemCount, by simp [hrh, h]⟩

/-- C8 witness: constructing with row height 0 is rejected. -/
theorem mkWindowedList_rejectsInvalid_witness :
    ((0 : ℤ) ≤ 0 ∨ (5 : ℤ) < 0) ∧
    ∃ e, mkWindowedList 5 0 500 = Except.error e :=
  ⟨Or.inl le_rfl,
    mkWindowedList_rejectsInvalid 5 0 500 (Or.inl (by decide))⟩
